import Mathlib

/-!
Verification development for the objection-ai turn orchestrator.

The definitions below are a shallow embedding of the TypeScript sources:
  * `src/ai/story-manager.ts`  — turn governor, speaker selection, transcript log
  * `src/ai/character-manager.ts` — persona context holder, speech drafting
  * `src/ai/case-manager.ts` — case orchestrator (`nextBeat`, prompt building,
    preset-id assignment)
  * `src/core/Character.ts` — bound courtroom character and the preset catalog

JavaScript numbers holding ids are embedded as `Int`; `Date.now()` timestamps
as `Nat`.  JavaScript `Map` and `Set` are embedded as association lists with
replace-on-set semantics.  Fallible operations (`throw`) return `Except Unit`.
Calls to the external generative service are abstracted by an oracle value
passed in: the response the service would produce for the single call a
function performs (`.error` models the call throwing).
-/

namespace ObjectionAI

/-- Truthiness of an optional JS number used as an id: `undefined`/`null` and
`0` are falsy, every other integer is truthy. -/
def jsTruthyIdOpt : Option Int → Bool
  | none => false
  | some i => i != 0

/-- JS `a || b` on two numbers that are known to be integers (a failed
`parseInt`, i.e. `NaN`, is folded into `0`, which is equally falsy). -/
def jsOrInt (a b : Int) : Int :=
  if a != 0 then a else b

/-- JS `String.prototype.toLowerCase`, embedded at the character-list level
(ASCII case mapping) so that it evaluates inside the kernel. -/
def jsToLowerCase (s : String) : String :=
  String.mk (s.data.map Char.toLower)

/-- JS `String.prototype.trim`, embedded at the character-list level so that it
evaluates inside the kernel. -/
def jsTrim (s : String) : String :=
  String.mk (((s.data.dropWhile Char.isWhitespace).reverse.dropWhile Char.isWhitespace).reverse)

/-- JS `parseInt(s)` (decimal): skip leading whitespace, optional sign, read
leading digits; `none` models `NaN` (no digits found). -/
def jsParseInt (s : String) : Option Int :=
  let cs := (jsTrim s).toList
  let signed : Int × List Char :=
    match cs with
    | '-' :: r => (-1, r)
    | '+' :: r => (1, r)
    | r => (1, r)
  let ds := signed.2.takeWhile Char.isDigit
  if ds.isEmpty then none
  else some (signed.1 * (Int.ofNat (ds.foldl (fun a c => a * 10 + (c.toNat - '0'.toNat)) 0)))

/-- JS `Map.prototype.set`: replace the value at an existing key in place,
otherwise append the binding. -/
def mapSet {κ α : Type} [BEq κ] (m : List (κ × α)) (k : κ) (v : α) : List (κ × α) :=
  match m with
  | [] => [(k, v)]
  | (k', v') :: rest => if k' == k then (k, v) :: rest else (k', v') :: mapSet rest k v

/-- JS `Map.prototype.get` (as an option). -/
def mapGet? {κ α : Type} [BEq κ] (m : List (κ × α)) (k : κ) : Option α :=
  (m.find? (fun p => p.1 == k)).map (fun p => p.2)

/-- JS `new Map(pairs)`: later bindings for the same key overwrite earlier
ones. -/
def mapOfPairs {κ α : Type} [BEq κ] (pairs : List (κ × α)) : List (κ × α) :=
  pairs.foldl (fun m p => mapSet m p.1 p.2) []

/-- The fixed mood enumeration of `character-manager.ts` / `Character.ts`. -/
inductive Mood where
  | neutral | happy | sad | angry | surprised | nervous
  deriving DecidableEq, Repr

def Mood.toStr : Mood → String
  | .neutral => "neutral"
  | .happy => "happy"
  | .sad => "sad"
  | .angry => "angry"
  | .surprised => "surprised"
  | .nervous => "nervous"

/-- `CharacterState` from `src/core/Character.ts`. -/
structure CharacterState where
  poseId : Int
  characterId : Int
  mood : Mood
  deriving DecidableEq, Repr

/-- `SpeakerCandidate` from `src/ai/story-manager.ts` (`isHuman` is optional in
TS with `undefined` falsy, embedded as a plain `Bool`). -/
structure SpeakerCandidate where
  id : Int
  username : String
  role : Option String
  isHuman : Bool
  isTyping : Bool
  deriving DecidableEq, Repr

/-- One entry of the `StoryManager.speechLog`. -/
structure SpeechLogEntry where
  speakerId : Option Int
  speakerName : String
  speakerState : Option CharacterState
  text : String
  deriving DecidableEq, Repr

/-- State of `StoryManager` (`src/ai/story-manager.ts`).  `genaiConfigured`
embeds whether `this.genai` is non-null. -/
structure StoryManager where
  keyPoints : List String
  keyPointIndex : Nat
  lastSpokenAt : List (Int × Nat)
  cooldownMs : Nat
  aiTurnsRemaining : Nat
  awaitingPlayer : Bool
  playerUsername : String
  genaiConfigured : Bool
  speechLog : List SpeechLogEntry
  deriving DecidableEq, Repr

/-- `beginPlayerTurn(username, aiTurnBudget)`: `Math.max(0, budget)`. -/
def beginPlayerTurn (s : StoryManager) (username : String) (aiTurnBudget : Int) : StoryManager :=
  { s with playerUsername := username
           awaitingPlayer := false
           aiTurnsRemaining := (max 0 aiTurnBudget).toNat }

/-- `openAiWindow(turns)`: `Math.max(0, turns ?? 0)`. -/
def openAiWindow (s : StoryManager) (turns : Option Int) : StoryManager :=
  { s with awaitingPlayer := false
           aiTurnsRemaining := (max 0 (turns.getD 0)).toNat }

/-- `completeAiTurn()`: decrement if positive; if the result is `<= 0`, set
`awaitingPlayer`. -/
def completeAiTurn (s : StoryManager) : StoryManager :=
  let r := if 0 < s.aiTurnsRemaining then s.aiTurnsRemaining - 1 else s.aiTurnsRemaining
  { s with aiTurnsRemaining := r
           awaitingPlayer := if r = 0 then true else s.awaitingPlayer }

/-- `forcePlayerTurn()`. -/
def forcePlayerTurn (s : StoryManager) : StoryManager :=
  { s with awaitingPlayer := true, aiTurnsRemaining := 0 }

/-- `isPlayerTurn()`: `awaitingPlayer || aiTurnsRemaining <= 0`. -/
def isPlayerTurn (s : StoryManager) : Bool :=
  s.awaitingPlayer || s.aiTurnsRemaining == 0

/-- `hasAiTurnAvailable()`. -/
def hasAiTurnAvailable (s : StoryManager) : Bool :=
  !isPlayerTurn s

/-- `recordSpeech(speakerId, now)`. -/
def recordSpeech (s : StoryManager) (speakerId : Int) (now : Nat) : StoryManager :=
  { s with lastSpokenAt := mapSet s.lastSpokenAt speakerId now }

/-- `logSpeech(speakerId, speakerName, text, speakerState)`; the timestamp is
recorded only for a truthy `speakerId`. -/
def logSpeech (s : StoryManager) (speakerId : Option Int) (speakerName : String)
    (text : String) (speakerState : Option CharacterState) (now : Nat) : StoryManager :=
  { s with speechLog := s.speechLog ++ [⟨speakerId, speakerName, speakerState, text⟩]
           lastSpokenAt :=
             if jsTruthyIdOpt speakerId then
               mapSet s.lastSpokenAt (speakerId.getD 0) now
             else s.lastSpokenAt }

/-- `getLast20Messages()`: `speechLog.slice(-20)`. -/
def getLast20Messages (s : StoryManager) : List SpeechLogEntry :=
  s.speechLog.drop (s.speechLog.length - 20)

/-- One line of `buildSpeechLogTranscript`: `[role] name(state): text`, where a
falsy `speakerId` denotes the human ("Defense") and the role lookup defaults to
"Character". -/
def transcriptLine (roleLookup : List (String × String)) (entry : SpeechLogEntry) : String :=
  let role :=
    if jsTruthyIdOpt entry.speakerId then
      ((roleLookup.find? (fun p => p.1 == entry.speakerName)).map (fun p => p.2)).getD "Character"
    else "Defense"
  let state :=
    match entry.speakerState with
    | some st => " (poseId=" ++ toString st.poseId ++ ", mood=" ++ st.mood.toStr ++ ")"
    | none => ""
  "[" ++ role ++ "] " ++ entry.speakerName ++ state ++ ": " ++ entry.text

/-- `buildSpeechLogTranscript(roleLookup)`: `none` models the `null` returned
when the log is empty. -/
def buildSpeechLogTranscript (s : StoryManager) (roleLookup : List (String × String)) :
    Option String :=
  let entries := getLast20Messages s
  if entries.isEmpty then none
  else some (String.intercalate "\n" (entries.map (transcriptLine roleLookup)))

/-- The optional context bundle handed to `chooseSpeaker`.  The memories and
text fields feed only the natural-language prompt for the generative service,
whose answer is abstracted by an oracle, so they do not influence the modelled
outcome. -/
structure ChooseSpeakerContext where
  storyPrompt : Option String
  lastMsg : Option String
  lastSpeakerName : Option String
  lastSpeakerId : Option Int
  lastSpeakerWantsContinue : Bool
  evidences : List String
  characterMemories : List (Int × List String)
  deriving DecidableEq, Repr

/-- `pickByCooldown(candidates, now)`: the cooldown filter is commented out in
the source, so every candidate is eligible; the candidates are stably sorted by
ascending `lastSpokenAt` (missing entries count as `0`) and the head is taken.
The head of a stable ascending sort is the first element attaining the minimum
key, which the fold below computes directly. -/
def pickByCooldown (s : StoryManager) (candidates : List SpeakerCandidate) (now : Nat) :
    Option SpeakerCandidate :=
  match candidates with
  | [] => none
  | c :: cs =>
    some (cs.foldl (fun best x =>
      if (mapGet? s.lastSpokenAt x.id).getD 0 < (mapGet? s.lastSpokenAt best.id).getD 0
      then x else best) c)

/-- `aiChooseSpeaker(candidates, context)` reduced to its outcome: the oracle is
the generative service's structured response (`speakerId` field; `none` inside
`.ok` models JSON `null`).  A thrown error is caught and yields no pick; a falsy
`speakerId` (null or 0) yields no pick; otherwise the id is validated against
the candidate list. -/
def aiChooseSpeaker (candidates : List SpeakerCandidate)
    (oracle : Except Unit (Option Int)) : Option SpeakerCandidate :=
  match oracle with
  | .error _ => none
  | .ok r =>
    if jsTruthyIdOpt r then candidates.find? (fun c => some c.id == r)
    else none

/-- The continuation rule inside `chooseSpeaker`: if the last speaker wants to
continue and its id is truthy, look it up among the non-human candidates. -/
def continuationPick (npcCandidates : List SpeakerCandidate)
    (context : Option ChooseSpeakerContext) : Option SpeakerCandidate :=
  match context with
  | none => none
  | some ctx =>
    if ctx.lastSpeakerWantsContinue && jsTruthyIdOpt ctx.lastSpeakerId then
      npcCandidates.find? (fun c => some c.id == ctx.lastSpeakerId)
    else none

/-- `chooseSpeaker(candidates, context, now)` of `src/ai/story-manager.ts`:
player-turn guard, human filter, continuation priority, then either the
cooldown fallback (no generative client or no context) or the AI choice, whose
failure yields the player's turn. -/
def chooseSpeaker (s : StoryManager) (candidates : List SpeakerCandidate)
    (context : Option ChooseSpeakerContext) (oracle : Except Unit (Option Int))
    (now : Nat) : Option SpeakerCandidate :=
  if isPlayerTurn s then none
  else
    let npcCandidates := candidates.filter (fun c => !c.isHuman)
    if npcCandidates.isEmpty then none
    else
      match continuationPick npcCandidates context with
      | some c => some c
      | none =>
        if !s.genaiConfigured || context.isNone then pickByCooldown s npcCandidates now
        else aiChooseSpeaker npcCandidates oracle

/-- `refineSpeech` is the identity placeholder, embedded at the draft level
later; `getFallbackInterjection` returns a constant. -/
def getFallbackInterjection : String := "stop"

/-- The `side` field of a catalog preset (`src/core/Character.ts`). -/
inductive Side where
  | defense | prosecution | witness | judge
  deriving DecidableEq, Repr

/-- One pose of a catalog preset (only the fields the orchestrator reads). -/
structure CharacterPose where
  id : Int
  name : String
  deriving DecidableEq, Repr

/-- One preset of the external catalog (`CharacterData`), restricted to the
fields the orchestrator reads. -/
structure CharacterData where
  id : Int
  side : Side
  poses : List CharacterPose
  deriving DecidableEq, Repr

/-- The preset catalog: `Character.characterCache`, loaded once before any case
is created; passed explicitly instead of static state. -/
abbrev Catalog := List CharacterData

/-- `Character.getCharacterData(id)`. -/
def getCharacterData (catalog : Catalog) (id : Int) : Option CharacterData :=
  List.find? (fun char => char.id == id) catalog

/-- A live bound `Character` (`src/core/Character.ts`): display state plus its
own memory list.  The socket sends it performs are outside the model. -/
structure CoreCharacter where
  state : CharacterState
  memory : List String
  deriving DecidableEq, Repr

/-- `Character.speech(text, poseId)`: updates `state.poseId` (keeping it when
the argument is absent) and emits on the channel (not modelled). -/
def CoreCharacter.speech (ch : CoreCharacter) (poseId : Option Int) : CoreCharacter :=
  { ch with state := { ch.state with poseId := poseId.getD ch.state.poseId } }

/-- `CharacterMemory` entries of `character-manager.ts`. -/
structure CharacterMemory where
  entry : String
  timestamp : Nat
  deriving DecidableEq, Repr

/-- `CharacterSpeech` entries of `character-manager.ts`. -/
structure CharacterSpeech where
  text : String
  timestamp : Nat
  deriving DecidableEq, Repr

/-- `CharacterProfile` from `character-manager.ts`. -/
structure CharacterProfile where
  id : Int
  name : String
  description : Option String
  isHuman : Bool
  initialPoseId : Option Int
  role : Option String
  characterId : Option Int
  disguised : Bool
  deriving DecidableEq, Repr

/-- State of a `CharacterManager`.  `character = none` means the persona is not
bound to a live socket (`bindSocket(null)` or never bound). -/
structure CharacterManager where
  id : Int
  name : String
  description : Option String
  isHuman : Bool
  characterId : Int
  role : Option String
  disguised : Bool
  poseId : Option Int
  memory : List CharacterMemory
  speeches : List CharacterSpeech
  character : Option CoreCharacter
  mood : Mood
  deriving DecidableEq, Repr

/-- The `CharacterManager` constructor: throws when the hydrated profile's
`characterId` is falsy (`!profile.characterId`). -/
def mkCharacterManager (profile : CharacterProfile) : Except Unit CharacterManager :=
  if jsTruthyIdOpt profile.characterId then
    .ok { id := profile.id
          name := profile.name
          description := profile.description
          isHuman := profile.isHuman
          characterId := profile.characterId.getD 0
          role := profile.role
          disguised := profile.disguised
          poseId := profile.initialPoseId
          memory := []
          speeches := []
          character := none
          mood := .neutral }
  else .error ()

/-- `pickDefaultPoseId()`: `this.poseId ?? data?.poses?.[0]?.id ?? 0`. -/
def pickDefaultPoseId (catalog : Catalog) (m : CharacterManager) : Int :=
  m.poseId.getD ((((getCharacterData catalog m.characterId).bind
    (fun d => d.poses.head?)).map (fun p => p.id)).getD 0)

/-- `setPose(poseId?)`: `this.character?.setPose(poseId ?? pickDefaultPoseId())`
— a silent no-op while unbound (optional chaining). -/
def CharacterManager.setPose (catalog : Catalog) (m : CharacterManager)
    (poseId : Option Int) : CharacterManager :=
  match m.character with
  | none => m
  | some ch =>
    let ch' := { ch with state := { ch.state with poseId := poseId.getD (pickDefaultPoseId catalog m) } }
    { m with character := some ch' }

/-- `getPose()`: `this.character?.getCurrentPoseId()`. -/
def CharacterManager.getPose (m : CharacterManager) : Option Int :=
  m.character.map (fun ch => ch.state.poseId)

/-- `recordSpeech(text, timestamp)` on a persona. -/
def CharacterManager.recordSpeech (m : CharacterManager) (text : String) (timestamp : Nat) :
    CharacterManager :=
  { m with speeches := m.speeches ++ [⟨text, timestamp⟩] }

/-- `getMemory(limit)`: `memory.slice(-limit)`. -/
def CharacterManager.getMemory (m : CharacterManager) (limit : Nat) : List CharacterMemory :=
  m.memory.drop (m.memory.length - limit)

/-- `addMemory(entry, timestamp)`: appended to the manager's list and mirrored
into the bound character when present. -/
def CharacterManager.addMemory (m : CharacterManager) (entry : String) (timestamp : Nat) :
    CharacterManager :=
  { m with memory := m.memory ++ [⟨entry, timestamp⟩]
           character := m.character.map (fun ch => ({ ch with memory := ch.memory ++ [entry] })) }

/-- `bindSocket(socket)`: unbinding clears the live character; binding builds a
new `Character`, whose constructor throws when the preset id is not in the
catalog. -/
def CharacterManager.bindSocket (catalog : Catalog) (m : CharacterManager)
    (socketPresent : Bool) : Except Unit CharacterManager :=
  if !socketPresent then .ok { m with character := none }
  else
    match getCharacterData catalog m.characterId with
    | none => .error ()
    | some _ =>
      let initialPoseId := m.poseId.getD (pickDefaultPoseId catalog m)
      .ok { m with
              character := some ⟨⟨initialPoseId, m.characterId, m.mood⟩, []⟩
              poseId := some initialPoseId }

/-- `getState()`. -/
def CharacterManager.getState (catalog : Catalog) (m : CharacterManager) : CharacterState :=
  { poseId := m.getPose.getD (pickDefaultPoseId catalog m)
    characterId := m.characterId
    mood := m.mood }

/-- `normalizeMood(value)`: case-insensitive membership in the fixed mood
enumeration. -/
def normalizeMood (value : String) : Option Mood :=
  match jsToLowerCase value with
  | "neutral" => some .neutral
  | "happy" => some .happy
  | "sad" => some .sad
  | "angry" => some .angry
  | "surprised" => some .surprised
  | "nervous" => some .nervous
  | _ => none

/-- The scene object of the raw JSON the generative service returns for a
speech draft.  Per the output schema `poseId` is declared a string (the code
later runs `parseInt` on it); `emotion` is an arbitrary string until it is
normalised. -/
structure RawScene where
  action : Option String
  emotion : Option String
  poseId : Option String
  deriving DecidableEq, Repr

/-- The raw, untrusted structured response of the generative service for
`generateSpeech` (every field may be missing). -/
structure RawSpeechDraft where
  text : Option String
  scene : Option RawScene
  playerTurn : Option Bool
  memory : Option (List String)
  continueSpeech : Option Bool
  deriving DecidableEq, Repr

/-- The processed scene inside a `SpeechDraft` (pose id now numeric). -/
structure SceneSuggestion where
  action : Option String
  emotion : Option String
  poseId : Option Int
  deriving DecidableEq, Repr

/-- `SpeechDraft` from `src/ai/story-manager.ts`. -/
structure SpeechDraft where
  text : String
  scene : Option SceneSuggestion
  playerTurn : Option Bool
  memory : Option (List String)
  continueSpeech : Option Bool
  deriving DecidableEq, Repr

/-- `refineSpeech(draft)`: identity placeholder. -/
def refineSpeech (draft : SpeechDraft) : SpeechDraft := draft

/-- `generateSpeech(prompt, genai)` of `character-manager.ts`.  With no client
or no bound character the empty draft is returned.  Otherwise the service call
(`oracle`) is awaited with no surrounding try/catch, so a thrown error
propagates (`.error`).  On success the code executes
`response!.scene!.poseId = parseInt(response.scene?.poseId) || getCurrentPoseId() || pickDefaultPoseId()`:
when the response carries no `scene` object this assignment raises a
`TypeError` (modelled `.error ()`); otherwise the pose id is coerced through
the `||` chain (a failed parse, i.e. `NaN`, and `0` are both falsy). -/
def generateSpeech (catalog : Catalog) (m : CharacterManager) (genaiConfigured : Bool)
    (oracle : Except Unit RawSpeechDraft) : Except Unit SpeechDraft :=
  if !genaiConfigured || m.character.isNone then
    .ok { text := "", scene := none, playerTurn := none, memory := none, continueSpeech := none }
  else
    match m.character with
    | none =>
      .ok { text := "", scene := none, playerTurn := none, memory := none, continueSpeech := none }
    | some ch =>
      match oracle with
      | .error e => .error e
      | .ok response =>
        match response.scene with
        | none => .error ()
        | some sc =>
          let parsed : Int := ((sc.poseId.bind jsParseInt).getD 0)
          let coercedPose := jsOrInt (jsOrInt parsed ch.state.poseId) (pickDefaultPoseId catalog m)
          .ok { text := jsTrim (response.text.getD "")
                scene := some { action := sc.action, emotion := sc.emotion, poseId := some coercedPose }
                playerTurn := response.playerTurn
                memory := response.memory
                continueSpeech := some (response.continueSpeech.getD false) }

/-- `sendMessage(draft)` of `character-manager.ts`: `ensureCharacter()` throws
while unbound; otherwise the draft's pose and (normalised) emotion are applied,
memory entries appended, and the dialogue emitted via `Character.speech`. -/
def CharacterManager.sendMessage (catalog : Catalog) (m : CharacterManager)
    (draft : SpeechDraft) (now : Nat) : Except Unit CharacterManager :=
  match m.character with
  | none => .error ()
  | some _ =>
    let draftPose := draft.scene.bind (fun sc => sc.poseId)
    let m := if draftPose.isSome then m.setPose catalog draftPose else m
    let m :=
      match (draft.scene.bind (fun sc => sc.emotion)).bind normalizeMood with
      | some md =>
        { m with mood := md
                 character := m.character.map
                   (fun (ch : CoreCharacter) => ({ ch with state := { ch.state with mood := md } })) }
      | none => m
    let m := (draft.memory.getD []).foldl (fun acc entry => acc.addMemory entry now) m
    let poseId := m.getPose.getD (pickDefaultPoseId catalog m)
    .ok { m with character := m.character.map (fun (ch : CoreCharacter) => ch.speech (some poseId)) }

/-- `EvidenceItem` from `case-manager.ts` (the orchestrator reads only `name`
besides carrying the record around). -/
structure EvidenceItem where
  id : String
  name : String
  description : Option String
  deriving DecidableEq, Repr

/-- `private readonly disallowedCharacterIds = new Set([1])` — the human
player's own preset (Phoenix Wright). -/
def disallowedCharacterIds : List Int := [1]

/-- State of the `CaseManager` (`src/ai/case-manager.ts`); `characters` is the
insertion-ordered `Map<number, CharacterManager>`, `usedCharacterIds` the `Set`.
`genaiConfigured` embeds whether `this.genai` is non-null. -/
structure CaseManager where
  genaiConfigured : Bool
  storyManager : StoryManager
  storyPrompt : String
  evidences : List EvidenceItem
  characters : List (Int × CharacterManager)
  usedCharacterIds : List Int
  deriving DecidableEq, Repr

/-- JS `Set.prototype.add`. -/
def addUsedId (cm : CaseManager) (id : Int) : CaseManager :=
  if cm.usedCharacterIds.contains id then cm
  else { cm with usedCharacterIds := id :: cm.usedCharacterIds }

/-- `resolveCharacterSide(role)`. -/
def resolveCharacterSide (role : Option String) : Option Side :=
  match role with
  | none => none
  | some r =>
    match jsToLowerCase r with
    | "witness" => some .witness
    | "judge" => some .judge
    | "prosecutor" => some .prosecution
    | "defendant" => some .defense
    | _ => none

/-- The pool inspected by `pickUnusedCharacterId`: the catalog, side-filtered
when a side is requested. -/
def presetPool (catalog : Catalog) (side : Option Side) : List CharacterData :=
  match side with
  | some sd => catalog.filter (fun (preset : CharacterData) => preset.side == sd)
  | none => catalog

/-- `pickUnusedCharacterId(side?)`: throws when the catalog is empty or the
(side-filtered) pool has no preset that is neither used nor disallowed;
otherwise claims and returns the first such preset id. -/
def pickUnusedCharacterId (catalog : Catalog) (cm : CaseManager) (side : Option Side) :
    Except Unit (Int × CaseManager) :=
  if catalog.isEmpty then .error ()
  else
    match (presetPool catalog side).find? (fun (preset : CharacterData) =>
        !cm.usedCharacterIds.contains preset.id && !disallowedCharacterIds.contains preset.id) with
    | none => .error ()
    | some available => .ok (available.id, addUsedId cm available.id)

/-- `ensureCharacterId(profile)`: a truthy supplied preset id is reassigned
only when disallowed (and otherwise recorded as used without further checks);
an absent (falsy) preset id is assigned from the unused pool. -/
def ensureCharacterId (catalog : Catalog) (cm : CaseManager) (profile : CharacterProfile) :
    Except Unit (CharacterProfile × CaseManager) :=
  let preferredSide := resolveCharacterSide profile.role
  if jsTruthyIdOpt profile.characterId then
    if disallowedCharacterIds.contains (profile.characterId.getD 0) then
      match pickUnusedCharacterId catalog cm preferredSide with
      | .error e => .error e
      | .ok (reassignedId, cm') =>
        match getCharacterData catalog reassignedId with
        | none => .error ()
        | some characterData =>
          .ok ({ profile with
                   characterId := some reassignedId
                   initialPoseId :=
                     match profile.initialPoseId with
                     | some p => some p
                     | none => (characterData.poses.head?).map (fun p => p.id) },
               cm')
    else
      .ok (profile, addUsedId cm (profile.characterId.getD 0))
  else
    match pickUnusedCharacterId catalog cm preferredSide with
    | .error e => .error e
    | .ok (assignedId, cm') =>
      match getCharacterData catalog assignedId with
      | none => .error ()
      | some characterData =>
        .ok ({ profile with
                 characterId := some assignedId
                 initialPoseId :=
                   match profile.initialPoseId with
                   | some p => some p
                   | none => (characterData.poses.head?).map (fun p => p.id) },
             cm')

/-- `addCharacter(profile)`: hydrate the profile, construct the manager, store
it under the persona id. -/
def addCharacter (catalog : Catalog) (cm : CaseManager) (profile : CharacterProfile) :
    Except Unit CaseManager :=
  match ensureCharacterId catalog cm profile with
  | .error e => .error e
  | .ok (hydrated, cm') =>
    match mkCharacterManager hydrated with
    | .error e => .error e
    | .ok manager => .ok { cm' with characters := mapSet cm'.characters hydrated.id manager }

/-- `createCharacterSet(profiles)`: clear the map and the used-id set, then add
each profile in order. -/
def createCharacterSet (catalog : Catalog) (cm : CaseManager)
    (profiles : List CharacterProfile) : Except Unit CaseManager :=
  List.foldlM (addCharacter catalog) { cm with characters := [], usedCharacterIds := [] } profiles

/-- `setKeyPoints(points)` on the story manager. -/
def setKeyPoints (s : StoryManager) (points : List String) : StoryManager :=
  { s with keyPoints := points, keyPointIndex := 0 }

/-- `createCase(definition)` (the `CaseState` return value is a read-only
projection and is not separately modelled). -/
def createCase (catalog : Catalog) (cm : CaseManager) (storyPrompt : String)
    (keyPoints : List String) (evidences : List EvidenceItem)
    (profiles : List CharacterProfile) : Except Unit CaseManager :=
  createCharacterSet catalog
    { cm with storyPrompt := storyPrompt
              evidences := evidences
              storyManager := setKeyPoints cm.storyManager keyPoints }
    profiles

/-- `NextBeatOptions` from `case-manager.ts`. -/
structure NextBeatOptions where
  candidates : List SpeakerCandidate
  lastMsg : String
  lastSpeakerId : Option Int
  lastSpeakerState : Option CharacterState
  messageIndex : Option Int
  messageLimit : Option Int
  prompt : Option String
  lastSpeakerName : Option String
  evidences : Option (List EvidenceItem)
  lastSpeakerWantsContinue : Option Bool
  deriving DecidableEq, Repr

/-- `NextBeatResult` from `case-manager.ts`. -/
structure NextBeatResult where
  speakerId : Option Int
  text : String
  wantsContinue : Option Bool
  deriving DecidableEq, Repr

/-- The lines of `buildPromptFromState(options, speaker)` before
`.filter(Boolean).join("\n")`; the full prompt is their non-empty members
joined with newlines.  Evidence titles are rendered only for a speaker whose
role lower-cases to "prosecutor". -/
def buildPromptLinesFromState (cm : CaseManager) (options : NextBeatOptions)
    (speaker : Option CharacterManager) : List String :=
  let keyPoints := cm.storyManager.keyPoints
  let messageCountLine :=
    if jsTruthyIdOpt options.messageIndex && jsTruthyIdOpt options.messageLimit then
      "AI message " ++ toString (options.messageIndex.getD 0) ++ " of " ++
        toString (options.messageLimit.getD 0)
    else ""
  let evidences := options.evidences.getD cm.evidences
  let isProsecutor :=
    ((speaker.bind (fun sp => sp.role)).map jsToLowerCase) == some "prosecutor"
  let evidenceTitles :=
    if isProsecutor && !evidences.isEmpty then
      "Available evidence: " ++ String.intercalate ", " (evidences.map (fun e => e.name))
    else ""
  let allMemories := (cm.characters.map (fun p =>
      let char := p.2
      let memories := char.getMemory 3
      if memories.isEmpty then ""
      else char.name ++ ": " ++ String.intercalate "; " (memories.map (fun mm => mm.entry)))).filter
    (fun line => line != "")
  let memoriesContext :=
    if allMemories.isEmpty then ""
    else "Character memories:\n" ++ String.intercalate "\n" allMemories
  let roleLookup := mapOfPairs (cm.characters.map (fun p => (p.2.name, p.2.role.getD "Character")))
  let transcript := buildSpeechLogTranscript cm.storyManager roleLookup
  let transcriptBlock :=
    match transcript with
    | some t => if t == "" then "" else "Recent transcript:\n" ++ t
    | none => ""
  [ "Story: " ++ cm.storyPrompt,
    if keyPoints.isEmpty then "" else "Key points: " ++ String.intercalate " | " keyPoints,
    evidenceTitles,
    memoriesContext,
    transcriptBlock,
    if jsTruthyIdOpt options.lastSpeakerId then
      "Last speaker: " ++ (options.lastSpeakerName.getD "unknown") ++ " (id " ++
        toString (options.lastSpeakerId.getD 0) ++ ")"
    else "Last speaker: player",
    match options.lastSpeakerState with
    | some st => "Last speaker pose: " ++ toString st.poseId ++ ", mood: " ++ st.mood.toStr
    | none => "",
    "Last message: \"" ++ options.lastMsg ++ "\"",
    messageCountLine,
    "Reply in <=25 words, courtroom tone. Keep dialogue flowing - other characters will continue the exchange."
  ].filter (fun line => line != "")

/-- `buildPromptFromState(options, speaker)`. -/
def buildPromptFromState (cm : CaseManager) (options : NextBeatOptions)
    (speaker : Option CharacterManager) : String :=
  String.intercalate "\n" (buildPromptLinesFromState cm options speaker)

/-- `nextBeat(options)` of `case-manager.ts`.  The two possible generative
calls of one beat are abstracted by oracles: `speakerOracle` is the speaker
choice response consumed inside `chooseSpeaker`, `speechOracle` the draft
response consumed inside `generateSpeech`.  `.error` means that call would
throw.  An `.error` result means `nextBeat` itself throws. -/
def nextBeat (catalog : Catalog) (cm : CaseManager) (options : NextBeatOptions)
    (speakerOracle : Except Unit (Option Int)) (speechOracle : Except Unit RawSpeechDraft)
    (now : Nat) : Except Unit (CaseManager × NextBeatResult) :=
  let characterMemories :=
    cm.characters.map (fun p => (p.2.id, (p.2.getMemory 5).map (fun mm => mm.entry)))
  let context : ChooseSpeakerContext :=
    { storyPrompt := some cm.storyPrompt
      lastMsg := some options.lastMsg
      lastSpeakerId := options.lastSpeakerId
      lastSpeakerName := options.lastSpeakerName
      lastSpeakerWantsContinue := options.lastSpeakerWantsContinue.getD false
      evidences := (options.evidences.getD cm.evidences).map (fun e => e.name)
      characterMemories := characterMemories }
  match chooseSpeaker cm.storyManager options.candidates (some context) speakerOracle now with
  | none => .ok (cm, { speakerId := none, text := "", wantsContinue := none })
  | some speaker =>
    let cm := { cm with storyManager := recordSpeech cm.storyManager speaker.id now }
    match mapGet? cm.characters speaker.id with
    | none => .ok (cm, { speakerId := some speaker.id, text := "", wantsContinue := none })
    | some character =>
      let _prompt := options.prompt.getD (buildPromptFromState cm options (some character))
      match generateSpeech catalog character cm.genaiConfigured speechOracle with
      | .error e => .error e
      | .ok draft =>
        let refined := refineSpeech draft
        let character := character.recordSpeech refined.text now
        match character.sendMessage catalog refined now with
        | .error e => .error e
        | .ok character' =>
          let cm := { cm with characters := mapSet cm.characters speaker.id character' }
          let sm := logSpeech cm.storyManager (some speaker.id) character'.name refined.text
            (some (character'.getState catalog)) now
          let sm := completeAiTurn sm
          let sm := if refined.playerTurn.getD false then forcePlayerTurn sm else sm
          .ok ({ cm with storyManager := sm },
               { speakerId := some speaker.id
                 text := refined.text
                 wantsContinue := some (refined.continueSpeech.getD false) })

/-! ## Spec-side definition of the deterministic fallback (for refinement) -/

/-- Strict order on optional last-spoken timestamps as the spec words it: a
persona that has never spoken sorts before any that has; otherwise earlier
timestamps sort first. -/
def specKeyLt : Option Nat → Option Nat → Bool
  | none, none => false
  | none, some _ => true
  | some _, none => false
  | some a, some b => decide (a < b)

/-- Written from the spec's words, for comparison with `pickByCooldown` (which
is translated from the source): "choose the candidate with the least-recent
recorded speech timestamp (ties broken by original candidate order); a persona
that has never spoken sorts before any that has" — i.e. the first candidate in
original order whose optional timestamp is minimal for `specKeyLt`. -/
def specLeastRecentPick (lastSpokenAt : List (Int × Nat))
    (candidates : List SpeakerCandidate) : Option SpeakerCandidate :=
  match candidates with
  | [] => none
  | c :: cs =>
    some (cs.foldl (fun best x =>
      if specKeyLt (mapGet? lastSpokenAt x.id) (mapGet? lastSpokenAt best.id) then x else best) c)

/-! ## Concrete states used to instantiate theorems -/

/-- The state of a freshly constructed `StoryManager` (constructor defaults,
no generative client). -/
def freshStory : StoryManager :=
  { keyPoints := []
    keyPointIndex := 0
    lastSpokenAt := []
    cooldownMs := 15000
    aiTurnsRemaining := 0
    awaitingPlayer := true
    playerUsername := "eduapps"
    genaiConfigured := false
    speechLog := [] }

/-- `freshStory` with an AI window of two turns open and a generative client
configured. -/
def windowStory : StoryManager :=
  { freshStory with awaitingPlayer := false, aiTurnsRemaining := 2, genaiConfigured := true }

/-- A non-human candidate with id 5. -/
def candFive : SpeakerCandidate :=
  { id := 5, username := "Miles Edgeworth", role := some "Prosecutor", isHuman := false, isTyping := false }

/-- A non-human candidate with id 0 (a perfectly well-formed persona id that
JavaScript truthiness treats as absent). -/
def candZero : SpeakerCandidate :=
  { id := 0, username := "The Judge", role := some "Judge", isHuman := false, isTyping := false }

/-- A human candidate. -/
def candHuman : SpeakerCandidate :=
  { id := 9, username := "Phoenix Wright", role := some "defense", isHuman := true, isTyping := false }

/-- A context in which the last speaker (id 0) asked to continue. -/
def contZeroCtx : ChooseSpeakerContext :=
  { storyPrompt := some "Turnabout Example"
    lastMsg := some "Hold it!"
    lastSpeakerName := some "The Judge"
    lastSpeakerId := some 0
    lastSpeakerWantsContinue := true
    evidences := []
    characterMemories := [] }

/-- `freshStory` with an AI window of two turns open and no generative client
(the deterministic fallback applies). -/
def windowStoryNoGenai : StoryManager :=
  { freshStory with awaitingPlayer := false, aiTurnsRemaining := 2 }

/-- A context in which the last speaker (id 5) asked to continue. -/
def contFiveCtx : ChooseSpeakerContext :=
  { storyPrompt := some "Turnabout Example"
    lastMsg := some "Objection!"
    lastSpeakerName := some "Miles Edgeworth"
    lastSpeakerId := some 5
    lastSpeakerWantsContinue := true
    evidences := []
    characterMemories := [] }

/-- A context without a continuation request. -/
def plainCtx : ChooseSpeakerContext :=
  { storyPrompt := some "Turnabout Example"
    lastMsg := some "Take that!"
    lastSpeakerName := none
    lastSpeakerId := none
    lastSpeakerWantsContinue := false
    evidences := []
    characterMemories := [] }

/-- `windowStoryNoGenai` after candidate 5 spoke at time 100. -/
def recencyStory : StoryManager :=
  { windowStoryNoGenai with lastSpokenAt := [(5, 100)] }

/-- A piece of evidence. -/
def sampleEvidence : EvidenceItem :=
  { id := "ev1", name := "Bloody Knife", description := some "Found at the scene" }

/-- An unbound persona manager whose role is Judge. -/
def judgeManager : CharacterManager :=
  { id := 10
    name := "The Judge"
    description := some "Stern but fair"
    isHuman := false
    characterId := 10
    role := some "Judge"
    disguised := false
    poseId := some 3
    memory := []
    speeches := []
    character := none
    mood := .neutral }

/-- An unbound persona manager whose role is Prosecutor. -/
def prosecutorManager : CharacterManager :=
  { id := 5
    name := "Miles Edgeworth"
    description := some "Ruthless prosecutor"
    isHuman := false
    characterId := 2
    role := some "Prosecutor"
    disguised := false
    poseId := some 1
    memory := []
    speeches := []
    character := none
    mood := .neutral }

/-- A case orchestrator state with one piece of evidence and no personas. -/
def emptyCase : CaseManager :=
  { genaiConfigured := true
    storyManager := windowStory
    storyPrompt := "Turnabout Example"
    evidences := [sampleEvidence]
    characters := []
    usedCharacterIds := [] }

/-- A small preset catalog: Phoenix Wright (id 1, reserved), Edgeworth (id 2),
the Judge (id 10) and two witnesses. -/
def sampleCatalog : Catalog :=
  [ { id := 1, side := .defense, poses := [⟨11, "Stand"⟩, ⟨12, "Point"⟩] },
    { id := 2, side := .prosecution, poses := [⟨1, "Confident"⟩, ⟨4, "Desk slam"⟩] },
    { id := 10, side := .judge, poses := [⟨3, "Gavel"⟩] },
    { id := 21, side := .witness, poses := [⟨7, "Nervous"⟩] },
    { id := 22, side := .witness, poses := [⟨8, "Calm"⟩] } ]

/-- A live bound character for the prosecutor persona. -/
def boundChar : CoreCharacter :=
  { state := { poseId := 1, characterId := 2, mood := .neutral }, memory := [] }

/-- `prosecutorManager` bound to a live socket. -/
def boundProsecutor : CharacterManager :=
  { prosecutorManager with character := some boundChar }

/-- A raw scene whose pose id is the unparsable string "not-a-number". -/
def notANumberScene : RawScene :=
  { action := some "slams desk", emotion := some "Angry", poseId := some "not-a-number" }

/-- A raw draft carrying `notANumberScene`. -/
def notANumberDraft : RawSpeechDraft :=
  { text := some "Objection!"
    scene := some notANumberScene
    playerTurn := some false
    memory := none
    continueSpeech := some true }

/-- A raw draft with no scene object at all (as the best-effort JSON coercion
of the client can produce). -/
def sceneLessDraft : RawSpeechDraft :=
  { text := some "Hmm."
    scene := none
    playerTurn := none
    memory := none
    continueSpeech := none }

/-- A processed speech draft with no scene. -/
def sampleDraft : SpeechDraft :=
  { text := "The court finds this claim dubious."
    scene := none
    playerTurn := some false
    memory := some ["player raised an objection"]
    continueSpeech := some false }

/-- Options for one beat carrying an explicit evidence override. -/
def sampleBeatOptions : NextBeatOptions :=
  { candidates := [candFive]
    lastMsg := "Objection!"
    lastSpeakerId := none
    lastSpeakerState := none
    messageIndex := some 1
    messageLimit := some 8
    prompt := none
    lastSpeakerName := none
    evidences := some [sampleEvidence]
    lastSpeakerWantsContinue := some false }

/-- A profile arriving with an explicit preset id 5 (absent from
`sampleCatalog`). -/
def dupProfileA : CharacterProfile :=
  { id := 30, name := "Witness A", description := none, isHuman := false,
    initialPoseId := none, role := some "Witness", characterId := some 5, disguised := false }

/-- A second profile arriving with the same explicit preset id 5. -/
def dupProfileB : CharacterProfile :=
  { id := 31, name := "Witness B", description := none, isHuman := false,
    initialPoseId := none, role := some "Witness", characterId := some 5, disguised := false }

/-- A judge profile with no preset id (to be auto-assigned). -/
def judgeProfile : CharacterProfile :=
  { id := 10, name := "The Judge", description := none, isHuman := false,
    initialPoseId := none, role := some "Judge", characterId := none, disguised := false }

/-- A prosecutor profile with no preset id. -/
def prosecutorProfile : CharacterProfile :=
  { id := 5, name := "Miles Edgeworth", description := none, isHuman := false,
    initialPoseId := none, role := some "Prosecutor", characterId := none, disguised := false }

/-- A witness profile with no preset id. -/
def witnessProfile : CharacterProfile :=
  { id := 4, name := "Larry Butz - Wt", description := none, isHuman := false,
    initialPoseId := none, role := some "Witness", characterId := none, disguised := false }

/-- The case produced by assembling the three auto-assigned profiles over
`sampleCatalog`. -/
def assignedCase : CaseManager :=
  match createCase sampleCatalog emptyCase "Turnabout Example" [] [sampleEvidence]
      [judgeProfile, prosecutorProfile, witnessProfile] with
  | .ok cm => cm
  | .error _ => emptyCase

/-- `judgeManager` bound to a live socket. -/
def boundJudge : CharacterManager :=
  { judgeManager with character := some ⟨⟨3, 10, .neutral⟩, []⟩ }

/-- The judge as a speaker candidate. -/
def candTen : SpeakerCandidate :=
  { id := 10, username := "The Judge", role := some "Judge", isHuman := false, isTyping := false }

/-- A case orchestrator with one bound judge persona, a generative client, and
an open AI window. -/
def judgeCase : CaseManager :=
  { genaiConfigured := true
    storyManager := windowStory
    storyPrompt := "Turnabout Example"
    evidences := [sampleEvidence]
    characters := [(10, boundJudge)]
    usedCharacterIds := [10] }

/-- Beat options in which the judge, the last speaker, asked to continue. -/
def contBeatOptions : NextBeatOptions :=
  { candidates := [candTen]
    lastMsg := "Please continue."
    lastSpeakerId := some 10
    lastSpeakerState := none
    messageIndex := some 2
    messageLimit := some 8
    prompt := none
    lastSpeakerName := some "The Judge"
    evidences := none
    lastSpeakerWantsContinue := some true }

/-- The same beat options without a continuation request. -/
def noContBeatOptions : NextBeatOptions :=
  { contBeatOptions with lastSpeakerWantsContinue := some false }

/-- The preset-id part of the Persona invariant of the spec's data model:
every persona of the case resolves its preset id in the catalog, holds none of
the reserved ids, and no two personas share a preset id. -/
def PresetInvariant (catalog : Catalog) (cm : CaseManager) : Prop :=
  (∀ q ∈ cm.characters, (getCharacterData catalog q.2.characterId).isSome = true ∧
      q.2.characterId ∉ disallowedCharacterIds) ∧
  cm.characters.Pairwise (fun a b => a.2.characterId ≠ b.2.characterId)

/-- `PresetInvariant` strengthened with the book-keeping that makes it
inductive: every stored preset id is also recorded in the used-id set. -/
def PresetInvariantUsed (catalog : Catalog) (cm : CaseManager) : Prop :=
  PresetInvariant catalog cm ∧
    ∀ q ∈ cm.characters, q.2.characterId ∈ cm.usedCharacterIds

/-! ## Turn governor facts -/

/-- One `completeAiTurn` call decrements the remaining budget by one, floored
at zero (Nat truncated subtraction). -/
theorem completeAiTurn_aiTurnsRemaining (t : StoryManager) :
    (completeAiTurn t).aiTurnsRemaining = t.aiTurnsRemaining - 1 := by
  simp only [completeAiTurn]
  split <;> omega

/-- One `completeAiTurn` call raises the player flag exactly when at most one
turn was left (otherwise the flag is kept). -/
theorem completeAiTurn_awaitingPlayer (t : StoryManager) :
    (completeAiTurn t).awaitingPlayer =
      (decide (t.aiTurnsRemaining ≤ 1) || t.awaitingPlayer) := by
  simp only [completeAiTurn]
  by_cases h : t.aiTurnsRemaining ≤ 1
  · have h' : (if 0 < t.aiTurnsRemaining then t.aiTurnsRemaining - 1 else t.aiTurnsRemaining) = 0 := by
      split <;> omega
    simp [h', h]
  · have h' : ¬ ((if 0 < t.aiTurnsRemaining then t.aiTurnsRemaining - 1 else t.aiTurnsRemaining) = 0) := by
      split <;> omega
    simp [h', h]

/-- Iterating `completeAiTurn` from a state inside an AI window: the remaining
budget decreases one per call (truncated), and the player flag is raised
exactly once the budget is exhausted. -/
theorem completeAiTurn_iterate (s : StoryManager) (hn : 1 ≤ s.aiTurnsRemaining)
    (haw : s.awaitingPlayer = false) (k : Nat) :
    ((completeAiTurn^[k]) s).aiTurnsRemaining = s.aiTurnsRemaining - k ∧
      ((completeAiTurn^[k]) s).awaitingPlayer = decide (s.aiTurnsRemaining ≤ k) := by
  induction k with
  | zero =>
    refine ⟨rfl, ?_⟩
    simp only [Function.iterate_zero, id_eq, haw]
    have : ¬ (s.aiTurnsRemaining ≤ 0) := by omega
    simp [this]
  | succ k ih =>
    obtain ⟨h1, h2⟩ := ih
    rw [Function.iterate_succ_apply']
    refine ⟨?_, ?_⟩
    · rw [completeAiTurn_aiTurnsRemaining, h1]
      omega
    · rw [completeAiTurn_awaitingPlayer, h1, h2]
      by_cases hle : s.aiTurnsRemaining ≤ k + 1
      · by_cases hk : s.aiTurnsRemaining ≤ k
        · simp [hle, hk]
        · have : s.aiTurnsRemaining - k ≤ 1 := by omega
          simp [hle, this]
      · have hk : ¬ (s.aiTurnsRemaining ≤ k) := by omega
        have : ¬ (s.aiTurnsRemaining - k ≤ 1) := by omega
        simp [hle, hk, this]

/-- From any state with `n` remaining turns and the player flag down, the
governor's queries after `k` completed AI turns are decided exactly by
comparing `k` with `n`. -/
theorem governor_iterate_queries (s₀ : StoryManager) (n : Nat) (hn : 1 ≤ n)
    (hr : s₀.aiTurnsRemaining = n) (hw : s₀.awaitingPlayer = false) (k : Nat) :
    ((completeAiTurn^[k]) s₀).aiTurnsRemaining = n - k ∧
      isPlayerTurn ((completeAiTurn^[k]) s₀) = decide (n ≤ k) ∧
      hasAiTurnAvailable ((completeAiTurn^[k]) s₀) = decide (k < n) := by
  obtain ⟨h1, h2⟩ := completeAiTurn_iterate s₀ (by omega) hw k
  rw [hr] at h1 h2
  have hp : isPlayerTurn ((completeAiTurn^[k]) s₀) = decide (n ≤ k) := by
    rw [isPlayerTurn, h1, h2]
    by_cases h : n ≤ k
    · have hz : n - k = 0 := by omega
      simp [h, hz]
    · have hz : ¬ (n - k = 0) := by omega
      simp [h, hz]
  refine ⟨h1, hp, ?_⟩
  rw [hasAiTurnAvailable, hp]
  by_cases h : n ≤ k
  · have : ¬ (k < n) := by omega
    simp [h, this]
  · have : k < n := by omega
    simp [h, this]

/-- C2: for every `n ≥ 1`, from the state produced by `openAiWindow n` or by
`beginPlayerTurn _ n`, after `k` calls to `completeAiTurn` the remaining count
is `n - k`, the governor reports the player's turn exactly when `n ≤ k` (so
after exactly `n` calls, never fewer) and still reports an AI turn available
exactly when `k < n`; moreover every single call decrements the remaining
count by one, floored at zero. -/
theorem governor_window_exact_turns (s : StoryManager) (u : String) (n k : Nat)
    (hn : 1 ≤ n) :
    (((completeAiTurn^[k]) (openAiWindow s (some (n : Int)))).aiTurnsRemaining = n - k ∧
      isPlayerTurn ((completeAiTurn^[k]) (openAiWindow s (some (n : Int)))) = decide (n ≤ k) ∧
      hasAiTurnAvailable ((completeAiTurn^[k]) (openAiWindow s (some (n : Int)))) = decide (k < n)) ∧
    (((completeAiTurn^[k]) (beginPlayerTurn s u (n : Int))).aiTurnsRemaining = n - k ∧
      isPlayerTurn ((completeAiTurn^[k]) (beginPlayerTurn s u (n : Int))) = decide (n ≤ k) ∧
      hasAiTurnAvailable ((completeAiTurn^[k]) (beginPlayerTurn s u (n : Int))) = decide (k < n)) ∧
    (∀ t : StoryManager, (completeAiTurn t).aiTurnsRemaining = t.aiTurnsRemaining - 1) := by
  refine ⟨?_, ?_, completeAiTurn_aiTurnsRemaining⟩
  · refine governor_iterate_queries _ n hn ?_ rfl k
    simp only [openAiWindow, Option.getD_some]
    omega
  · refine governor_iterate_queries _ n hn ?_ rfl k
    simp only [beginPlayerTurn]
    omega

/-- Witness for C2 at `n = 2`: one completed turn still leaves an AI turn
available, two completed turns hand the floor to the player. -/
theorem governor_window_exact_turns_witness :
    hasAiTurnAvailable ((completeAiTurn^[1]) (openAiWindow freshStory (some (2 : Int)))) =
        decide (1 < 2) ∧
      isPlayerTurn ((completeAiTurn^[2]) (openAiWindow freshStory (some (2 : Int)))) =
        decide (2 ≤ 2) :=
  ⟨(governor_window_exact_turns freshStory "eduapps" 2 1 (by decide)).1.2.2,
   (governor_window_exact_turns freshStory "eduapps" 2 2 (by decide)).1.2.1⟩

/-! ## Speaker selection: continuation priority -/

/-- C3 fails as stated: with an AI turn available, the last speaker (id 0)
explicitly asking to continue, and that id present among the non-human
candidates, `chooseSpeaker` does not return it — JS truthiness treats the id
`0` as absent, so the cooldown fallback picks the other candidate instead. -/
theorem continuation_zero_id_counterexample :
    hasAiTurnAvailable windowStoryNoGenai = true ∧
      contZeroCtx.lastSpeakerWantsContinue = true ∧
      contZeroCtx.lastSpeakerId = some candZero.id ∧
      (List.filter (fun c => !c.isHuman) [candFive, candZero]).contains candZero = true ∧
      chooseSpeaker windowStoryNoGenai [candFive, candZero] (some contZeroCtx)
        (Except.ok none) 0 = some candFive ∧
      candFive ≠ candZero := by
  decide

/-- C3 (amended with a nonzero last-speaker id): whenever an AI turn is
available, the last speaker signalled a desire to continue, its id is nonzero,
and the lookup of that id among the non-human candidates succeeds,
`chooseSpeaker` returns exactly that candidate — for every oracle response and
every recorded-timestamp map, i.e. without consulting the generative service
and regardless of speech timestamps. -/
theorem continuation_priority (s : StoryManager) (cands : List SpeakerCandidate)
    (ctx : ChooseSpeakerContext) (oracle : Except Unit (Option Int)) (now : Nat)
    (c : SpeakerCandidate)
    (hAvail : hasAiTurnAvailable s = true)
    (hWants : ctx.lastSpeakerWantsContinue = true)
    (hId : ctx.lastSpeakerId = some c.id)
    (hNz : c.id ≠ 0)
    (hFound : (cands.filter (fun x => !x.isHuman)).find?
      (fun x => some x.id == ctx.lastSpeakerId) = some c) :
    chooseSpeaker s cands (some ctx) oracle now = some c := by
  have hpt : isPlayerTurn s = false := by
    have := hAvail
    rw [hasAiTurnAvailable] at this
    cases h : isPlayerTurn s
    · rfl
    · rw [h] at this
      exact absurd this (by decide)
  have hmem : c ∈ cands.filter (fun x => !x.isHuman) := List.mem_of_find?_eq_some hFound
  have hne : (cands.filter (fun x => !x.isHuman)).isEmpty = false := by
    cases hl : cands.filter (fun x => !x.isHuman)
    · rw [hl] at hmem
      exact absurd hmem (List.not_mem_nil c)
    · rfl
  have hcont : continuationPick (cands.filter (fun x => !x.isHuman)) (some ctx) = some c := by
    rw [continuationPick, hWants, hId]
    have : jsTruthyIdOpt (some c.id) = true := by
      rw [jsTruthyIdOpt]
      simpa using hNz
    rw [this]
    simp only [Bool.and_true, Bool.true_and, if_true]
    rw [← hId]
    exact hFound
  rw [chooseSpeaker, hpt]
  simp only [Bool.false_eq_true, if_false, hne, hcont]

/-- Witness for the amended C3: the continuing speaker with nonzero id 5 is
returned. -/
theorem continuation_priority_witness :
    chooseSpeaker windowStoryNoGenai [candHuman, candFive] (some contFiveCtx)
      (Except.ok (some 0)) 7 = some candFive :=
  continuation_priority windowStoryNoGenai [candHuman, candFive] contFiveCtx
    (Except.ok (some 0)) 7 candFive (by decide) (by decide) (by decide) (by decide) (by decide)

/-! ## Speaker selection: generative failure handling -/

/-- C4: when the speaker choice is delegated to the generative service (client
configured, context supplied, no continuation pick) and the call errors, the
service signals a null id, or the returned id matches no non-human candidate,
`chooseSpeaker` returns `none` — yield to the human.  The embedded selector is
a total function: the only effect of a thrown service error is the `.error`
oracle branch, mirroring the `try`/`catch` in the source, so selection never
throws. -/
theorem ai_choice_failure_yields_none (s : StoryManager) (cands : List SpeakerCandidate)
    (ctx : ChooseSpeakerContext) (oracle : Except Unit (Option Int)) (now : Nat)
    (hGenai : s.genaiConfigured = true)
    (hCont : continuationPick (cands.filter (fun x => !x.isHuman)) (some ctx) = none)
    (hBad : oracle = Except.error () ∨ oracle = Except.ok none ∨
      (∃ r : Int, oracle = Except.ok (some r) ∧
        (cands.filter (fun x => !x.isHuman)).find? (fun c => some c.id == some r) = none)) :
    chooseSpeaker s cands (some ctx) oracle now = none := by
  have hai : aiChooseSpeaker (cands.filter (fun x => !x.isHuman)) oracle = none := by
    rcases hBad with h | h | ⟨r, hr, hfind⟩
    · rw [h, aiChooseSpeaker]
    · rw [h, aiChooseSpeaker]
      rfl
    · rw [hr, aiChooseSpeaker]
      by_cases hz : r = 0
      · subst hz
        rfl
      · have ht : jsTruthyIdOpt (some r) = true := by
          simp [jsTruthyIdOpt, hz]
        simp only [ht, if_true]
        exact hfind
  rw [chooseSpeaker]
  by_cases hpt : isPlayerTurn s = true
  · simp [hpt]
  · have hpt' : isPlayerTurn s = false := by
      simpa using hpt
    simp only [hpt', Bool.false_eq_true, if_false]
    by_cases hne : (cands.filter (fun x => !x.isHuman)).isEmpty = true
    · simp [hne]
    · have hne' : (cands.filter (fun x => !x.isHuman)).isEmpty = false := by
        simpa using hne
      simp only [hne', Bool.false_eq_true, if_false, hCont, hGenai, Option.isNone_some,
        Bool.not_true, Bool.or_false, Bool.false_eq_true, if_false]
      exact hai

/-- Witness for C4: with a configured client, no continuation, and a service
call that throws, the selector yields to the human. -/
theorem ai_choice_failure_yields_none_witness :
    chooseSpeaker windowStory [candFive] (some plainCtx) (Except.error ()) 0 = none :=
  ai_choice_failure_yields_none windowStory [candFive] plainCtx (Except.error ()) 0
    (by decide) (by decide) (Or.inl rfl)

/-! ## Speaker selection: deterministic fallback -/

/-- Every timestamp surfaced by `mapGet?` on an all-positive map is positive. -/
theorem mapGet?_pos (last : List (Int × Nat)) (hpos : ∀ p ∈ last, 0 < p.2)
    (id : Int) (t : Nat) (h : mapGet? last id = some t) : 0 < t := by
  rw [mapGet?] at h
  rcases hfind : last.find? (fun p => p.1 == id) with _ | p
  · rw [hfind] at h
    cases h
  · rw [hfind] at h
    have hp : p.2 = t := by
      simpa using h
    exact hp ▸ hpos p (List.mem_of_find?_eq_some hfind)

/-- On an all-positive timestamp map, the code's comparison of defaulted keys
(`?? 0`) agrees with the spec's order on optional keys. -/
theorem key_lt_iff_specKeyLt (last : List (Int × Nat)) (hpos : ∀ p ∈ last, 0 < p.2)
    (i j : Int) :
    ((mapGet? last i).getD 0 < (mapGet? last j).getD 0 ↔
      specKeyLt (mapGet? last i) (mapGet? last j) = true) := by
  rcases hi : mapGet? last i with _ | a <;> rcases hj : mapGet? last j with _ | b
  · simp [specKeyLt]
  · have := mapGet?_pos last hpos j b hj
    simp [specKeyLt]
    omega
  · have := mapGet?_pos last hpos i a hi
    simp [specKeyLt]
  · simp [specKeyLt]

/-- `pickByCooldown` computes exactly the spec's least-recently-spoken choice
whenever all recorded timestamps are positive (which `Date.now()` guarantees). -/
theorem pickByCooldown_eq_spec (s : StoryManager) (cands : List SpeakerCandidate)
    (now : Nat) (hpos : ∀ p ∈ s.lastSpokenAt, 0 < p.2) :
    pickByCooldown s cands now = specLeastRecentPick s.lastSpokenAt cands := by
  cases cands with
  | nil => rfl
  | cons c cs =>
    rw [pickByCooldown, specLeastRecentPick]
    congr 1
    have hstep :
        (fun (best x : SpeakerCandidate) =>
          if (mapGet? s.lastSpokenAt x.id).getD 0 < (mapGet? s.lastSpokenAt best.id).getD 0
          then x else best) =
        (fun (best x : SpeakerCandidate) =>
          if specKeyLt (mapGet? s.lastSpokenAt x.id) (mapGet? s.lastSpokenAt best.id)
          then x else best) := by
      funext best x
      by_cases h : (mapGet? s.lastSpokenAt x.id).getD 0 < (mapGet? s.lastSpokenAt best.id).getD 0
      · rw [if_pos h, if_pos ((key_lt_iff_specKeyLt s.lastSpokenAt hpos x.id best.id).mp h)]
      · rw [if_neg h, if_neg (fun hb =>
          h ((key_lt_iff_specKeyLt s.lastSpokenAt hpos x.id best.id).mpr hb))]
    rw [hstep]

/-- C5: with an AI turn available but no generative client configured (or no
context bundle supplied), and no continuation pick, `chooseSpeaker` returns
exactly the spec's deterministic fallback over the non-human candidates: the
least-recently-spoken candidate, where a candidate that has never spoken sorts
before any that has and ties resolve to the earliest in original candidate
order — provided every recorded timestamp is positive, as `Date.now()`
guarantees. -/
theorem fallback_least_recent (s : StoryManager) (cands : List SpeakerCandidate)
    (context : Option ChooseSpeakerContext) (oracle : Except Unit (Option Int)) (now : Nat)
    (hAvail : isPlayerTurn s = false)
    (hNoAI : s.genaiConfigured = false ∨ context = none)
    (hCont : continuationPick (cands.filter (fun x => !x.isHuman)) context = none)
    (hpos : ∀ p ∈ s.lastSpokenAt, 0 < p.2) :
    chooseSpeaker s cands context oracle now =
      specLeastRecentPick s.lastSpokenAt (cands.filter (fun x => !x.isHuman)) := by
  rw [chooseSpeaker, hAvail]
  simp only [Bool.false_eq_true, if_false]
  by_cases hne : (cands.filter (fun x => !x.isHuman)).isEmpty = true
  · rw [if_pos hne]
    rcases List.isEmpty_iff.mp hne with hnil
    rw [hnil]
    rfl
  · rw [if_neg hne, hCont]
    have hcond : (!s.genaiConfigured || context.isNone) = true := by
      rcases hNoAI with h | h
      · rw [h]
        rfl
      · rw [h]
        simp
    simp only [hcond, if_true]
    exact pickByCooldown_eq_spec s _ now hpos

/-- Witness for C5: with candidate 5 having spoken at time 100 and candidate 0
never, the fallback returns the never-spoken candidate, matching the spec-side
pick. -/
theorem fallback_least_recent_witness :
    chooseSpeaker recencyStory [candFive, candZero] (some plainCtx) (Except.ok none) 0 =
        specLeastRecentPick recencyStory.lastSpokenAt
          ([candFive, candZero].filter (fun x => !x.isHuman)) ∧
      specLeastRecentPick recencyStory.lastSpokenAt
          ([candFive, candZero].filter (fun x => !x.isHuman)) = some candZero :=
  ⟨fallback_least_recent recencyStory [candFive, candZero] (some plainCtx) (Except.ok none) 0
      (by decide) (Or.inl (by decide)) (by decide) (by decide),
   by decide⟩

/-! ## Speaker selection: the human is never chosen -/

/-- A fold that at each step keeps either the accumulator or the current
element stays inside the initial element and the list. -/
theorem foldl_mem_of_step (step : SpeakerCandidate → SpeakerCandidate → SpeakerCandidate)
    (hstep : ∀ b x, step b x = b ∨ step b x = x) :
    ∀ (cs : List SpeakerCandidate) (c : SpeakerCandidate), cs.foldl step c ∈ c :: cs := by
  intro cs
  induction cs with
  | nil =>
    intro c
    simp
  | cons x cs ih =>
    intro c
    rw [List.foldl_cons]
    rcases List.mem_cons.mp (ih (step c x)) with h | h
    · rw [h]
      rcases hstep c x with h' | h' <;> rw [h']
      · exact List.mem_cons_self c _
      · exact List.mem_cons_of_mem c (List.mem_cons_self x cs)
    · exact List.mem_cons_of_mem c (List.mem_cons_of_mem x h)

/-- A successful `pickByCooldown` returns one of its candidates. -/
theorem pickByCooldown_mem (s : StoryManager) (cands : List SpeakerCandidate) (now : Nat)
    (c : SpeakerCandidate) (h : pickByCooldown s cands now = some c) : c ∈ cands := by
  cases cands with
  | nil => cases h
  | cons c0 cs =>
    rw [pickByCooldown] at h
    have hm := foldl_mem_of_step
      (fun best x =>
        if (mapGet? s.lastSpokenAt x.id).getD 0 < (mapGet? s.lastSpokenAt best.id).getD 0
        then x else best)
      (fun b x => by
        by_cases hc : (mapGet? s.lastSpokenAt x.id).getD 0 < (mapGet? s.lastSpokenAt b.id).getD 0
        · exact Or.inr (if_pos hc)
        · exact Or.inl (if_neg hc))
      cs c0
    cases h
    exact hm

/-- A successful `continuationPick` returns one of its candidates. -/
theorem continuationPick_mem (npc : List SpeakerCandidate)
    (context : Option ChooseSpeakerContext) (c : SpeakerCandidate)
    (h : continuationPick npc context = some c) : c ∈ npc := by
  rcases context with _ | ctx
  · cases h
  · rw [continuationPick] at h
    by_cases hcond : (ctx.lastSpeakerWantsContinue && jsTruthyIdOpt ctx.lastSpeakerId) = true
    · rw [if_pos hcond] at h
      exact List.mem_of_find?_eq_some h
    · rw [if_neg hcond] at h
      cases h

/-- A successful `aiChooseSpeaker` returns one of its candidates. -/
theorem aiChooseSpeaker_mem (npc : List SpeakerCandidate) (oracle : Except Unit (Option Int))
    (c : SpeakerCandidate) (h : aiChooseSpeaker npc oracle = some c) : c ∈ npc := by
  rcases oracle with e | r
  · cases h
  · rw [aiChooseSpeaker] at h
    by_cases ht : jsTruthyIdOpt r = true
    · rw [if_pos ht] at h
      exact List.mem_of_find?_eq_some h
    · rw [if_neg ht] at h
      cases h

/-- C10: every non-`none` result of `chooseSpeaker` — over every state,
candidate list (human members included), context, oracle response and clock —
is one of the supplied candidates and has `isHuman = false`: the selector never
chooses a human. -/
theorem chooseSpeaker_never_human (s : StoryManager) (cands : List SpeakerCandidate)
    (context : Option ChooseSpeakerContext) (oracle : Except Unit (Option Int)) (now : Nat)
    (c : SpeakerCandidate)
    (h : chooseSpeaker s cands context oracle now = some c) :
    c ∈ cands ∧ c.isHuman = false := by
  have hnpc : c ∈ cands.filter (fun x => !x.isHuman) := by
    rw [chooseSpeaker] at h
    by_cases hpt : isPlayerTurn s = true
    · rw [if_pos hpt] at h
      cases h
    · rw [if_neg hpt] at h
      by_cases hne : (cands.filter (fun x => !x.isHuman)).isEmpty = true
      · rw [if_pos hne] at h
        cases h
      · rw [if_neg hne] at h
        rcases hcp : continuationPick (cands.filter (fun x => !x.isHuman)) context with _ | c'
        · rw [hcp] at h
          simp only at h
          by_cases hfb : (!s.genaiConfigured || context.isNone) = true
          · rw [if_pos hfb] at h
            exact pickByCooldown_mem s _ now c h
          · rw [if_neg hfb] at h
            exact aiChooseSpeaker_mem _ oracle c h
        · rw [hcp] at h
          simp only [Option.some.injEq] at h
          subst h
          exact continuationPick_mem _ context _ hcp
  have := List.mem_filter.mp hnpc
  refine ⟨this.1, ?_⟩
  have hb := this.2
  simp only [Bool.not_eq_true'] at hb
  exact hb

/-- Witness for C10: a mixed human/non-human candidate list where the selector
returns candidate 5; the theorem yields its membership and non-humanity. -/
theorem chooseSpeaker_never_human_witness :
    candFive ∈ [candHuman, candFive] ∧ candFive.isHuman = false :=
  chooseSpeaker_never_human windowStoryNoGenai [candHuman, candFive] (some plainCtx)
    (Except.ok none) 3 candFive (by decide)

/-! ## Evidence visibility in the speech prompt -/

/-- Appending to a non-empty string never yields the empty string. -/
theorem str_append_ne_empty (a b : String) (h : a.data ≠ []) : ((a ++ b) != "") = true := by
  rw [bne_iff_ne]
  intro hc
  apply h
  have hd : (a ++ b).data = [] := by
    rw [hc]
  rw [String.data_append] at hd
  exact (List.append_eq_nil.mp hd).1

/-- C6: the prompt built by the orchestrator mentions the evidence names only
for a prosecutor speaker.  First part: for a speaker whose role does not
lower-case to "prosecutor", the built prompt is unchanged under arbitrary
replacement of both the case evidence set and the per-call evidence override —
it cannot contain the evidence names.  Second part: for a prosecutor speaker
with a non-empty effective evidence set, the built prompt's lines contain the
evidence-name list. -/
theorem evidence_visibility_prosecutor_only (cm : CaseManager) (opts : NextBeatOptions)
    (speaker : CharacterManager) (e2 : List EvidenceItem) (oe2 : Option (List EvidenceItem)) :
    (speaker.role.map jsToLowerCase ≠ some "prosecutor" →
      buildPromptFromState { cm with evidences := e2 } { opts with evidences := oe2 }
          (some speaker) =
        buildPromptFromState cm opts (some speaker)) ∧
    (speaker.role.map jsToLowerCase = some "prosecutor" →
      (opts.evidences.getD cm.evidences) ≠ [] →
      ("Available evidence: " ++ String.intercalate ", "
          ((opts.evidences.getD cm.evidences).map (fun e => e.name)))
        ∈ buildPromptLinesFromState cm opts (some speaker)) := by
  constructor
  · intro hrole
    have hb : ((speaker.role.map jsToLowerCase) == some "prosecutor") = false :=
      beq_eq_false_iff_ne.mpr hrole
    simp only [buildPromptFromState, buildPromptLinesFromState, Option.some_bind, hb,
      Bool.false_and, Bool.false_eq_true, if_false]
  · intro hrole hne
    have hb : ((speaker.role.map jsToLowerCase) == some "prosecutor") = true :=
      beq_iff_eq.mpr hrole
    have hnon : (opts.evidences.getD cm.evidences).isEmpty = false := by
      rcases hev : opts.evidences.getD cm.evidences with _ | ⟨x, xs⟩
      · exact absurd hev hne
      · rfl
    simp only [buildPromptLinesFromState, Option.some_bind, hb, hnon, Bool.not_false,
      Bool.true_and, if_true]
    refine List.mem_filter.mpr ⟨?_, ?_⟩
    · simp only [List.mem_cons]
      right; right; left
      trivial
    · exact str_append_ne_empty _ _ (by decide)

/-- Witness for C6, applying both parts at concrete inputs: a non-prosecutor
speaker's prompt ignores an evidence swap, and a prosecutor speaker's prompt
lines carry the evidence names. -/
theorem evidence_visibility_prosecutor_only_witness :
    (buildPromptFromState { emptyCase with evidences := [sampleEvidence] }
        { sampleBeatOptions with evidences := none } (some judgeManager) =
      buildPromptFromState emptyCase sampleBeatOptions (some judgeManager)) ∧
    ("Available evidence: " ++ String.intercalate ", "
        ((sampleBeatOptions.evidences.getD emptyCase.evidences).map (fun e => e.name)))
      ∈ buildPromptLinesFromState emptyCase sampleBeatOptions (some prosecutorManager) :=
  ⟨(evidence_visibility_prosecutor_only emptyCase sampleBeatOptions judgeManager
      [sampleEvidence] none).1 (by decide),
   (evidence_visibility_prosecutor_only emptyCase sampleBeatOptions prosecutorManager
      [sampleEvidence] none).2 (by decide) (by decide)⟩

/-! ## Pose coercion in `generateSpeech` -/

/-- C7 fails as stated: a structured draft whose `scene` object is absent makes
`generateSpeech` throw — the assignment `response!.scene!.poseId = ...` raises
a `TypeError` — instead of resolving a pose, so the coercion is not total over
all structured drafts. -/
theorem pose_coercion_sceneless_counterexample :
    generateSpeech sampleCatalog boundProsecutor true (Except.ok sceneLessDraft) =
      Except.error () := by
  rfl

/-- C7 (amended to drafts that carry a scene object, as the code's own output
contract requires): for every such draft, `generateSpeech` coerces the scene
pose id to a number, and when the pose id is absent or unparsable (`parseInt`
yields `NaN`) or parses to the falsy `0`, the resulting draft carries the
persona's current pose id — or, when that is the falsy `0`, its default (first
valid) pose — and the call returns normally instead of throwing. -/
theorem pose_coercion_safe (catalog : Catalog) (m : CharacterManager)
    (resp : RawSpeechDraft) (ch : CoreCharacter) (sc : RawScene)
    (hb : m.character = some ch)
    (hsc : resp.scene = some sc)
    (hparse : sc.poseId.bind jsParseInt = none ∨ sc.poseId.bind jsParseInt = some 0) :
    generateSpeech catalog m true (Except.ok resp) =
      Except.ok
        { text := jsTrim (resp.text.getD "")
          scene := some
            { action := sc.action
              emotion := sc.emotion
              poseId := some (jsOrInt ch.state.poseId (pickDefaultPoseId catalog m)) }
          playerTurn := resp.playerTurn
          memory := resp.memory
          continueSpeech := some (resp.continueSpeech.getD false) } := by
  have hz : ((sc.poseId.bind jsParseInt).getD 0) = 0 := by
    rcases hparse with hp | hp <;> rw [hp] <;> rfl
  simp only [generateSpeech, hb, Option.isNone_some, Bool.not_true, Bool.or_false,
    Bool.false_eq_true, if_false, hsc, hz]
  have h0 : jsOrInt 0 ch.state.poseId = ch.state.poseId := by
    rw [jsOrInt]
    simp
  rw [h0]

/-- Witness for the amended C7: the literal pose id "not-a-number" resolves to
the persona's current pose id without an error. -/
theorem pose_coercion_safe_witness :
    generateSpeech sampleCatalog boundProsecutor true (Except.ok notANumberDraft) =
      Except.ok
        { text := jsTrim (notANumberDraft.text.getD "")
          scene := some
            { action := notANumberScene.action
              emotion := notANumberScene.emotion
              poseId := some (jsOrInt boundChar.state.poseId
                (pickDefaultPoseId sampleCatalog boundProsecutor)) }
          playerTurn := notANumberDraft.playerTurn
          memory := notANumberDraft.memory
          continueSpeech := some (notANumberDraft.continueSpeech.getD false) } :=
  pose_coercion_safe sampleCatalog boundProsecutor notANumberDraft boundChar notANumberScene
    rfl rfl (Or.inl (by decide))

/-! ## Persona actions while unbound -/

/-- C9 fails as stated: a direct pose change on a persona that is not bound to
a live output channel is a silent no-op (the optional chaining in
`this.character?.setPose(...)`), not an error — the state is returned unchanged
and, `setPose` being an infallible function, nothing is thrown. -/
theorem unbound_setPose_counterexample :
    prosecutorManager.character = none ∧
      CharacterManager.setPose sampleCatalog prosecutorManager (some 4) = prosecutorManager := by
  exact ⟨rfl, rfl⟩

/-- C9 (amended): emitting speech while unbound — `sendMessage`, which is also
the only path that applies the draft's pose, mood and memory — throws
(`ensureCharacter()`); but a direct `setPose` call while unbound silently does
nothing rather than failing. -/
theorem unbound_persona_actions (catalog : Catalog) (m : CharacterManager)
    (draft : SpeechDraft) (now : Nat) (p : Option Int)
    (h : m.character = none) :
    m.sendMessage catalog draft now = Except.error () ∧
      m.setPose catalog p = m := by
  constructor
  · simp only [CharacterManager.sendMessage, h]
  · simp only [CharacterManager.setPose, h]

/-- Witness for the amended C9 at the unbound prosecutor manager. -/
theorem unbound_persona_actions_witness :
    prosecutorManager.sendMessage sampleCatalog sampleDraft 0 = Except.error () ∧
      prosecutorManager.setPose sampleCatalog (some 4) = prosecutorManager :=
  unbound_persona_actions sampleCatalog prosecutorManager sampleDraft 0 (some 4) rfl

/-! ## Preset-id assignment invariant -/

/-- Pool members come from the catalog. -/
theorem mem_presetPool (catalog : Catalog) (side : Option Side) (p : CharacterData)
    (h : p ∈ presetPool catalog side) : p ∈ catalog := by
  rcases side with _ | sd
  · exact h
  · exact List.mem_of_mem_filter h

/-- A `contains = false` list does not hold the element. -/
theorem not_mem_of_contains_eq_false {l : List Int} {a : Int}
    (h : l.contains a = false) : a ∉ l := by
  intro hm
  have ht : l.contains a = true := List.elem_iff.mpr hm
  rw [ht] at h
  cases h

/-- What a successful `pickUnusedCharacterId` guarantees: the returned id is
resolvable in the catalog, neither disallowed nor already used, and is claimed
into the used-id set of the returned state. -/
theorem pickUnused_spec (catalog : Catalog) (cm : CaseManager) (side : Option Side)
    (rid : Int) (cm' : CaseManager)
    (h : pickUnusedCharacterId catalog cm side = Except.ok (rid, cm')) :
    (getCharacterData catalog rid).isSome = true ∧
      rid ∉ disallowedCharacterIds ∧
      rid ∉ cm.usedCharacterIds ∧
      cm' = addUsedId cm rid := by
  rw [pickUnusedCharacterId] at h
  by_cases hemp : catalog.isEmpty = true
  · rw [if_pos hemp] at h
    cases h
  · rw [if_neg hemp] at h
    rcases hfind : (presetPool catalog side).find? (fun preset =>
        !cm.usedCharacterIds.contains preset.id && !disallowedCharacterIds.contains preset.id)
      with _ | available
    · rw [hfind] at h
      cases h
    · rw [hfind] at h
      simp only [Except.ok.injEq, Prod.mk.injEq] at h
      obtain ⟨hid, hcm⟩ := h
      have hpred := List.find?_some hfind
      have hmem := mem_presetPool catalog side available (List.mem_of_find?_eq_some hfind)
      rw [Bool.and_eq_true, Bool.not_eq_true', Bool.not_eq_true'] at hpred
      obtain ⟨husedb, hdisb⟩ := hpred
      subst hid
      refine ⟨?_, not_mem_of_contains_eq_false hdisb,
        not_mem_of_contains_eq_false husedb, hcm.symm⟩
      rw [getCharacterData]
      exact List.find?_isSome.mpr ⟨available, hmem, by simp⟩

/-- What a successful `mkCharacterManager` guarantees about identity fields. -/
theorem mkCharacterManager_ok (profile : CharacterProfile) (mgr : CharacterManager)
    (h : mkCharacterManager profile = Except.ok mgr) :
    mgr.characterId = profile.characterId.getD 0 ∧ mgr.id = profile.id := by
  rw [mkCharacterManager] at h
  by_cases ht : jsTruthyIdOpt profile.characterId = true
  · rw [if_pos ht] at h
    cases h
    exact ⟨rfl, rfl⟩
  · rw [if_neg ht] at h
    cases h

/-- `ensureCharacterId` on a profile with an absent (falsy) preset id: the
hydrated profile carries a freshly picked preset id — resolvable, not
disallowed, not yet used — and the state has claimed it. -/
theorem ensureCharacterId_falsy_spec (catalog : Catalog) (cm : CaseManager)
    (profile : CharacterProfile) (hyd : CharacterProfile) (cm' : CaseManager)
    (hf : jsTruthyIdOpt profile.characterId = false)
    (h : ensureCharacterId catalog cm profile = Except.ok (hyd, cm')) :
    ∃ rid : Int, hyd.characterId = some rid ∧ hyd.id = profile.id ∧
      (getCharacterData catalog rid).isSome = true ∧
      rid ∉ disallowedCharacterIds ∧
      rid ∉ cm.usedCharacterIds ∧
      cm' = addUsedId cm rid := by
  rw [ensureCharacterId, hf] at h
  simp only [Bool.false_eq_true, if_false] at h
  rcases hpick : pickUnusedCharacterId catalog cm (resolveCharacterSide profile.role)
    with e | ⟨rid, cmp⟩
  · rw [hpick] at h
    cases h
  · simp only [hpick] at h
    obtain ⟨hsome, hdis, hused, hcm⟩ := pickUnused_spec catalog cm _ rid cmp hpick
    rcases hdata : getCharacterData catalog rid with _ | cd
    · rw [hdata] at hsome
      cases hsome
    · simp only [hdata] at h
      simp only [Except.ok.injEq, Prod.mk.injEq] at h
      obtain ⟨hhyd, hcm'⟩ := h
      subst hhyd
      subst hcm'
      exact ⟨rid, rfl, rfl, hsome, hdis, hused, hcm⟩

/-- `addUsedId` leaves the persona map unchanged. -/
theorem addUsedId_characters (cm : CaseManager) (rid : Int) :
    (addUsedId cm rid).characters = cm.characters := by
  rw [addUsedId]
  split <;> rfl

/-- Membership in the used-id set after `addUsedId`. -/
theorem mem_addUsedId (cm : CaseManager) (rid x : Int) :
    x ∈ (addUsedId cm rid).usedCharacterIds ↔ x = rid ∨ x ∈ cm.usedCharacterIds := by
  rw [addUsedId]
  by_cases hc : cm.usedCharacterIds.contains rid = true
  · rw [if_pos hc]
    constructor
    · exact Or.inr
    · rintro (rfl | hx)
      · exact List.elem_iff.mp hc
      · exact hx
  · rw [if_neg hc]
    simp [List.mem_cons]

/-- Every member of `mapSet m k v` is the new binding or an old member. -/
theorem mem_mapSet {κ α : Type} [BEq κ] (m : List (κ × α)) (k : κ) (v : α)
    (q : κ × α) (h : q ∈ mapSet m k v) : q = (k, v) ∨ q ∈ m := by
  induction m with
  | nil =>
    rw [mapSet] at h
    rcases List.mem_singleton.mp h with rfl
    exact Or.inl rfl
  | cons p rest ih =>
    obtain ⟨k', v'⟩ := p
    rw [mapSet] at h
    by_cases hk : (k' == k) = true
    · rw [if_pos hk] at h
      rcases List.mem_cons.mp h with rfl | hq
      · exact Or.inl rfl
      · exact Or.inr (List.mem_cons_of_mem _ hq)
    · rw [if_neg hk] at h
      rcases List.mem_cons.mp h with rfl | hq
      · exact Or.inr (List.mem_cons_self _ _)
      · rcases ih hq with h' | h'
        · exact Or.inl h'
        · exact Or.inr (List.mem_cons_of_mem _ h')

/-- Replacing-or-appending a binding whose value's preset id is fresh keeps
preset ids pairwise distinct. -/
theorem mapSet_pairwise (m : List (Int × CharacterManager)) (k : Int) (v : CharacterManager)
    (hm : m.Pairwise (fun a b => a.2.characterId ≠ b.2.characterId))
    (hfresh : ∀ q ∈ m, q.2.characterId ≠ v.characterId) :
    (mapSet m k v).Pairwise (fun a b => a.2.characterId ≠ b.2.characterId) := by
  induction m with
  | nil =>
    rw [mapSet]
    exact List.pairwise_singleton _ _
  | cons p rest ih =>
    obtain ⟨k', v'⟩ := p
    rw [mapSet]
    rcases List.pairwise_cons.mp hm with ⟨hhead, htail⟩
    by_cases hk : (k' == k) = true
    · rw [if_pos hk]
      refine List.pairwise_cons.mpr ⟨?_, htail⟩
      intro q hq
      exact fun heq =>
        hfresh q (List.mem_cons_of_mem _ hq) heq.symm
    · rw [if_neg hk]
      refine List.pairwise_cons.mpr
        ⟨?_, ih htail (fun q hq => hfresh q (List.mem_cons_of_mem _ hq))⟩
      intro q hq
      rcases mem_mapSet rest k v q hq with rfl | hq'
      · exact hfresh (k', v') (List.mem_cons_self _ _)
      · exact hhead q hq'

/-- One `addCharacter` over a profile with an absent preset id preserves the
strengthened preset invariant. -/
theorem addCharacter_preserves_inv (catalog : Catalog) (cm cm₂ : CaseManager)
    (profile : CharacterProfile)
    (hf : jsTruthyIdOpt profile.characterId = false)
    (hInv : PresetInvariantUsed catalog cm)
    (h : addCharacter catalog cm profile = Except.ok cm₂) :
    PresetInvariantUsed catalog cm₂ := by
  rw [addCharacter] at h
  rcases hens : ensureCharacterId catalog cm profile with e | ⟨hyd, cm'⟩
  · rw [hens] at h
    cases h
  · simp only [hens] at h
    obtain ⟨rid, hcid, hid, hsome, hdis, hused, hcm'⟩ :=
      ensureCharacterId_falsy_spec catalog cm profile hyd cm' hf hens
    rcases hmk : mkCharacterManager hyd with e | mgr
    · simp only [hmk] at h
      cases h
    · simp only [hmk] at h
      simp only [Except.ok.injEq] at h
      subst h
      obtain ⟨hmgrcid, hmgrid⟩ := mkCharacterManager_ok hyd mgr hmk
      have hmgr_rid : mgr.characterId = rid := by
        rw [hmgrcid, hcid]
        rfl
      subst hcm'
      obtain ⟨⟨hres, hpair⟩, husedall⟩ := hInv
      have hfresh : ∀ q ∈ cm.characters, q.2.characterId ≠ mgr.characterId := by
        intro q hq heq
        have hin : rid ∈ cm.usedCharacterIds := by
          rw [← hmgr_rid, ← heq]
          exact husedall q hq
        exact hused hin
      refine ⟨⟨?_, ?_⟩, ?_⟩
      · intro q hq
        simp only [addUsedId_characters] at hq
        rcases mem_mapSet cm.characters hyd.id mgr q hq with rfl | hq'
        · rw [hmgr_rid]
          exact ⟨hsome, hdis⟩
        · exact hres q hq'
      · simp only [addUsedId_characters]
        exact mapSet_pairwise cm.characters hyd.id mgr hpair hfresh
      · intro q hq
        simp only [addUsedId_characters] at hq
        rcases mem_mapSet cm.characters hyd.id mgr q hq with rfl | hq'
        · rw [hmgr_rid]
          exact (mem_addUsedId cm rid rid).mpr (Or.inl rfl)
        · exact (mem_addUsedId cm rid _).mpr (Or.inr (husedall q hq'))

/-- Folding `addCharacter` over profiles with absent preset ids preserves the
strengthened preset invariant. -/
theorem foldl_addCharacter_inv (catalog : Catalog) (profiles : List CharacterProfile) :
    ∀ cm cm' : CaseManager,
      (∀ p ∈ profiles, jsTruthyIdOpt p.characterId = false) →
      PresetInvariantUsed catalog cm →
      List.foldlM (addCharacter catalog) cm profiles = Except.ok cm' →
      PresetInvariantUsed catalog cm' := by
  induction profiles with
  | nil =>
    intro cm cm' _ hInv h
    simp only [List.foldlM_nil] at h
    cases h
    exact hInv
  | cons p ps ih =>
    intro cm cm' hprof hInv h
    rw [List.foldlM_cons] at h
    rcases hadd : addCharacter catalog cm p with e | cm₁
    · rw [hadd] at h
      cases h
    · rw [hadd] at h
      have hstep := addCharacter_preserves_inv catalog cm cm₁ p
        (hprof p (List.mem_cons_self _ _)) hInv hadd
      exact ih cm₁ cm' (fun q hq => hprof q (List.mem_cons_of_mem _ hq)) hstep h

/-- C8 fails as stated: two profiles may arrive with the same explicit preset
id 5, which `sampleCatalog` does not even contain; `ensureCharacterId` records
it as used without validating existence or uniqueness, so the assembled case
holds two personas with the same, catalog-absent preset id. -/
theorem preset_invariant_counterexample :
    (createCharacterSet sampleCatalog emptyCase [dupProfileA, dupProfileB]).map
        (fun cm => cm.characters.map (fun q => q.2.characterId)) =
      Except.ok [5, 5] ∧
    getCharacterData sampleCatalog 5 = none := by
  exact ⟨rfl, rfl⟩

/-- C8 (amended to profiles that do not supply their own preset id, the case
in which the orchestrator assigns one): after `createCase` succeeds over such
profiles, every persona — non-human or not, the code treats them alike — holds
a preset id that resolves in the loaded catalog, is none of the reserved ids,
and is held by no other persona of the case.  (A profile supplying its own
non-disallowed preset id is recorded but not validated, which the
counterexample exhibits.) -/
theorem preset_invariant_assigned (catalog : Catalog) (cm0 : CaseManager)
    (storyPrompt : String) (keyPoints : List String) (evidences : List EvidenceItem)
    (profiles : List CharacterProfile) (cm' : CaseManager)
    (hprof : ∀ p ∈ profiles, jsTruthyIdOpt p.characterId = false)
    (h : createCase catalog cm0 storyPrompt keyPoints evidences profiles = Except.ok cm') :
    PresetInvariant catalog cm' := by
  rw [createCase, createCharacterSet] at h
  have hInv0 : PresetInvariantUsed catalog
      { storyManager := setKeyPoints cm0.storyManager keyPoints
        genaiConfigured := cm0.genaiConfigured
        storyPrompt := storyPrompt
        evidences := evidences
        characters := []
        usedCharacterIds := [] } := by
    refine ⟨⟨?_, List.Pairwise.nil⟩, ?_⟩
    · intro q hq
      cases hq
    · intro q hq
      cases hq
  exact (foldl_addCharacter_inv catalog profiles _ cm' hprof hInv0 h).1

/-- Witness for the amended C8: assembling a judge, a prosecutor and a witness
with no supplied preset ids over the sample catalog satisfies the invariant. -/
theorem preset_invariant_assigned_witness :
    PresetInvariant sampleCatalog assignedCase :=
  preset_invariant_assigned sampleCatalog emptyCase "Turnabout Example" [] [sampleEvidence]
    [judgeProfile, prosecutorProfile, witnessProfile] assignedCase (by decide) rfl

/-! ## `nextBeat` under a generative service that always throws -/

/-- C1 is violated by the code.  Evaluating `nextBeat` with oracles that model
a generative service throwing on every call: (1) when a continuation pre-empts
speaker selection, the error thrown inside `generateSpeech` (which has no
try/catch) propagates out of `nextBeat`; (2) when no continuation applies,
speaker selection swallows the error and yields no speaker, and `nextBeat`
returns an empty result with the case state — in particular the turn governor —
completely unchanged, i.e. without advancing one completed AI turn. -/
theorem nextBeat_all_throwing_service :
    nextBeat sampleCatalog judgeCase contBeatOptions (Except.error ()) (Except.error ()) 50 =
        Except.error () ∧
      nextBeat sampleCatalog judgeCase noContBeatOptions (Except.error ()) (Except.error ()) 50 =
        Except.ok (judgeCase, { speakerId := none, text := "", wantsContinue := none }) := by
  exact ⟨rfl, rfl⟩

end ObjectionAI
